import Mathlib

/-!
Verification development for the hybrid resume-job scoring engine
(LLM_TsaeChienne).  Python sources are shallowly embedded: machine floats
become rationals, strings become lists of characters, regex scans become
explicit character-level scanners, and fallible oracle calls become
`Except String`.  Interpolated numeric fragments inside explanation
strings are elided where no claim depends on them; each such elision is
noted on the definition.
-/

/-! ## Basic string machinery (Python `str` operations on `List Char`) -/

/-- Characters of a string. -/
def chars (s : String) : List Char := s.data

/-- Python `str.lower()` (ASCII; the repository inputs relevant to the
claims are ASCII apart from accented letters, which `lower()` leaves
unchanged in the embedded fragments we evaluate). -/
def lowerChars (l : List Char) : List Char := l.map Char.toLower

/-- Python `needle in hay` substring test. -/
def subOf (needle : List Char) : List Char → Bool
  | [] => needle.isEmpty
  | c :: t => needle.isPrefixOf (c :: t) || subOf needle t

/-- Python `str.strip()`: drop leading and trailing whitespace. -/
def pyStrip (l : List Char) : List Char :=
  ((l.dropWhile Char.isWhitespace).reverse.dropWhile Char.isWhitespace).reverse

/-- Helper for `pySplit`: accumulate the current word (reversed). -/
def pySplitAux : List Char → List Char → List (List Char)
  | [], acc => if acc.isEmpty then [] else [acc.reverse]
  | c :: t, acc =>
    if c.isWhitespace then
      if acc.isEmpty then pySplitAux t [] else acc.reverse :: pySplitAux t []
    else pySplitAux t (c :: acc)

/-- Python `str.split()` with no argument: split on whitespace runs,
no empty tokens. -/
def pySplit (l : List Char) : List (List Char) := pySplitAux l []

/-- Helper for `splitLines`: accumulate the current line (reversed). -/
def splitLinesAux : List Char → List Char → List (List Char)
  | [], acc => [acc.reverse]
  | c :: t, acc =>
    if c == '\n' then acc.reverse :: splitLinesAux t []
    else splitLinesAux t (c :: acc)

/-- Python `str.split(chr(10))`: split on newlines, keeping empty lines. -/
def splitLines (l : List Char) : List (List Char) := splitLinesAux l []

/-- Python `s.replace(pat, "")` (remove every non-overlapping occurrence,
left to right).  Fueled by the input length. -/
def removeAllAux (pat : List Char) : Nat → List Char → List Char
  | 0, l => l
  | _, [] => []
  | Nat.succ n, c :: t =>
    if pat.isPrefixOf (c :: t) && !pat.isEmpty then
      removeAllAux pat n ((c :: t).drop pat.length)
    else c :: removeAllAux pat n t

/-- Python `s.replace(pat, "")`. -/
def removeAll (pat l : List Char) : List Char := removeAllAux pat l.length l

/-- Skip whitespace (regex `\s*`). -/
def skipWs (l : List Char) : List Char := l.dropWhile Char.isWhitespace

/-- Python `max(a, b)` on rationals, kept as an explicit conditional so
that concrete evaluations reduce in the kernel. -/
def pyMax (a b : ℚ) : ℚ := if a ≤ b then b else a

/-- Python `min(a, b)` on rationals. -/
def pyMin (a b : ℚ) : ℚ := if a ≤ b then a else b

/-- `pyMax` agrees with the lattice `max`. -/
theorem pyMax_eq_max (a b : ℚ) : pyMax a b = max a b := by
  unfold pyMax
  rw [max_def]

/-- `pyMin` agrees with the lattice `min`. -/
theorem pyMin_eq_min (a b : ℚ) : pyMin a b = min a b := by
  unfold pyMin
  rw [min_def]

/-! ## Data model (src/scoring/models.py) -/

/-- `ScoreDetail` from src/scoring/models.py (the free-form `metadata`
map is elided; no claim depends on it). -/
structure ScoreDetail where
  score : ℚ
  maxScore : ℚ
  explanation : String
deriving Repr, DecidableEq

/-- `DeterministicScore` from src/scoring/models.py. -/
structure DeterministicScore where
  skillsMatching : ScoreDetail
  experienceYears : ScoreDetail
  educationMatch : ScoreDetail
  salaryFit : ScoreDetail
  locationMatch : ScoreDetail
deriving Repr, DecidableEq

/-- `DeterministicScore.total` property. -/
def DeterministicScore.total (d : DeterministicScore) : ℚ :=
  d.skillsMatching.score + d.experienceYears.score + d.educationMatch.score +
    d.salaryFit.score + d.locationMatch.score

/-- `SemanticScore` from src/scoring/models.py. -/
structure SemanticScore where
  softSkillsMatch : ScoreDetail
  cultureFit : ScoreDetail
  growthPotential : ScoreDetail
  projectRelevance : ScoreDetail
deriving Repr, DecidableEq

/-- `SemanticScore.total` property. -/
def SemanticScore.total (s : SemanticScore) : ℚ :=
  s.softSkillsMatch.score + s.cultureFit.score + s.growthPotential.score +
    s.projectRelevance.score

/-- `BonusScore` from src/scoring/models.py. -/
structure BonusScore where
  industryExperience : ScoreDetail
  rareSkillsPremium : ScoreDetail
  careerTrajectory : ScoreDetail
deriving Repr, DecidableEq

/-- `BonusScore.total` property. -/
def BonusScore.total (b : BonusScore) : ℚ :=
  b.industryExperience.score + b.rareSkillsPremium.score + b.careerTrajectory.score

/-- `ScoreBreakdown` from src/scoring/models.py. -/
structure ScoreBreakdown where
  deterministic : DeterministicScore
  semantic : SemanticScore
  bonus : BonusScore
deriving Repr, DecidableEq

/-- `ScoreBreakdown.total_score` property. -/
def ScoreBreakdown.totalScore (b : ScoreBreakdown) : ℚ :=
  b.deterministic.total + b.semantic.total + b.bonus.total

/-- The per-detail bounds established by every constructor in the scoring
pipeline: each `ScoreDetail` is nonnegative and bounded by the canonical
maximum the pipeline assigns to its dimension (15/10/5/5/5 deterministic,
15/10/10/5 semantic, 10/5/5 bonus). -/
def pipelineBounds (b : ScoreBreakdown) : Prop :=
  0 ≤ b.deterministic.skillsMatching.score ∧ b.deterministic.skillsMatching.score ≤ 15 ∧
  0 ≤ b.deterministic.experienceYears.score ∧ b.deterministic.experienceYears.score ≤ 10 ∧
  0 ≤ b.deterministic.educationMatch.score ∧ b.deterministic.educationMatch.score ≤ 5 ∧
  0 ≤ b.deterministic.salaryFit.score ∧ b.deterministic.salaryFit.score ≤ 5 ∧
  0 ≤ b.deterministic.locationMatch.score ∧ b.deterministic.locationMatch.score ≤ 5 ∧
  0 ≤ b.semantic.softSkillsMatch.score ∧ b.semantic.softSkillsMatch.score ≤ 15 ∧
  0 ≤ b.semantic.cultureFit.score ∧ b.semantic.cultureFit.score ≤ 10 ∧
  0 ≤ b.semantic.growthPotential.score ∧ b.semantic.growthPotential.score ≤ 10 ∧
  0 ≤ b.semantic.projectRelevance.score ∧ b.semantic.projectRelevance.score ≤ 5 ∧
  0 ≤ b.bonus.industryExperience.score ∧ b.bonus.industryExperience.score ≤ 10 ∧
  0 ≤ b.bonus.rareSkillsPremium.score ∧ b.bonus.rareSkillsPremium.score ≤ 5 ∧
  0 ≤ b.bonus.careerTrajectory.score ∧ b.bonus.careerTrajectory.score ≤ 5

instance (b : ScoreBreakdown) : Decidable (pipelineBounds b) := by
  unfold pipelineBounds
  infer_instance

/-! ## Experience banding (src/scoring/deterministic_scoring_tool.py,
`_score_experience_years`, lines 627-644) -/

/-- The experience sub-score as a function of extracted candidate years
and required years (the score computation of `_score_experience_years`,
lines 627-644; the explanation strings around it are not needed by any
claim). -/
def scoreExperienceBand (resumeYears requiredYears : ℤ) : ℚ :=
  if resumeYears ≥ requiredYears then
    if resumeYears ≤ requiredYears + 5 then 10
    else if resumeYears ≤ requiredYears + 10 then 9
    else if resumeYears ≤ requiredYears + 15 then 8
    else 7
  else
    pyMax 0 (10 - 2 * ((requiredYears : ℚ) - (resumeYears : ℚ)))

/-! ## Salary fit (src/scoring/deterministic_scoring_tool.py,
`_score_salary_fit`, lines 737-784) -/

/-- `_score_salary_fit`.  The `diff_percent` interpolation inside the
explanation strings is elided (each branch keeps its fixed French
prefix); the branch structure and scores are verbatim. -/
def scoreSalaryFit (jobSalary : ℤ) (candidateSalaryExpectation : Option ℤ) :
    ScoreDetail :=
  match candidateSalaryExpectation with
  | none =>
      { score := 5, maxScore := 5,
        explanation := "Salaire non spécifié, assumé acceptable" }
  | some e =>
      if e = 0 then
        { score := 5, maxScore := 5,
          explanation := "Salaire non spécifié, assumé acceptable" }
      else
        let diffPercent : ℚ := ((jobSalary : ℚ) - (e : ℚ)) / (e : ℚ) * 100
        if diffPercent ≥ 10 then
          { score := 5, maxScore := 5,
            explanation := "Salaire offert supérieur aux attentes" }
        else if diffPercent ≥ 0 then
          { score := 5, maxScore := 5,
            explanation := "Salaire offert correspond aux attentes" }
        else if diffPercent ≥ -10 then
          { score := 4, maxScore := 5,
            explanation := "Salaire légèrement en dessous des attentes" }
        else if diffPercent ≥ -20 then
          { score := 2, maxScore := 5,
            explanation := "Salaire en dessous des attentes" }
        else
          { score := 0, maxScore := 5,
            explanation := "Salaire très en dessous des attentes" }

/-! ## Quick triage score (src/agents/conversational_agent.py,
`_quick_score`, lines 424-452) -/

/-- The slice of a job record used by the triage pipeline. -/
structure QJob where
  title : String
  requirements : List String
  description : String
deriving Repr, DecidableEq

/-- Size of the intersection of two Python word sets:
`set(a.split()) & set(b.split())` over already-lowercased text. -/
def commonWordCount (a b : List Char) : Nat :=
  (((pySplit a).dedup).filter (fun w => (pySplit b).contains w)).length

/-- The requirement bonus of `_quick_score` (lines 438-443):
`(matched/total)*30`, or nothing when the job lists no requirements. -/
def quickReqBonus (resumeLower : List Char) (job : QJob) : ℚ :=
  if job.requirements.isEmpty then 0
  else
    (((job.requirements.filter
        (fun r => subOf (lowerChars (chars r)) resumeLower)).length : ℚ) /
      (job.requirements.length : ℚ)) * 30

/-- The description bonus of `_quick_score` (lines 446-450):
`min(20, common_words*0.5)` when the word sets overlap. -/
def quickDescBonus (resumeLower : List Char) (job : QJob) : ℚ :=
  let common := commonWordCount (lowerChars (chars job.description)) resumeLower
  if 0 < common then pyMin 20 ((common : ℚ) * (1 / 2)) else 0

/-- `_quick_score`: base 50, plus the requirement and description
bonuses, capped at 100. -/
def quickScore (resumeText : String) (job : QJob) : ℚ :=
  let resumeLower := lowerChars (chars resumeText)
  pyMin 100 (50 + quickReqBonus resumeLower job + quickDescBonus resumeLower job)

/-! ## Experience extraction from date ranges
(src/scoring/deterministic_scoring_tool.py, `_extract_experience_from_dates`,
lines 365-423).  The regex scans are embedded as character-level scanners
with Python `re.findall` semantics: leftmost, non-overlapping, advancing
one character on failure. -/

/-- Apostrophe character, written numerically. -/
def apos : Char := Char.ofNat 39

/-- Numeric value of a digit character. -/
def digitVal (c : Char) : Nat := c.toNat - 48

/-- Regex `\d{4}`: four consecutive digits, returning the year and the
remaining text. -/
def take4Digits : List Char → Option (ℤ × List Char)
  | a :: b :: c :: d :: rest =>
    if a.isDigit && b.isDigit && c.isDigit && d.isDigit then
      some (((digitVal a * 1000 + digitVal b * 100 + digitVal c * 10 +
        digitVal d : ℕ) : ℤ), rest)
    else none
  | _ => none

/-- Case-insensitive literal prefix match, returning the remaining text. -/
def matchCaseless : List Char → List Char → Option (List Char)
  | [], l => some l
  | _ :: _, [] => none
  | p :: ps, c :: cs =>
    if p.toLower == c.toLower then matchCaseless ps cs else none

/-- Regex `\s+(\d{4})`: at least one whitespace, then four digits. -/
def wsPlusDigits4 : List Char → Option (ℤ × List Char)
  | [] => none
  | c :: t => if c.isWhitespace then take4Digits (skipWs t) else none

/-- Regex `(\d{4})\s*[-–—]\s*(\d{4})` (pattern 1 of
`_extract_experience_from_dates`). -/
def matchRange1 (l : List Char) : Option ((ℤ × ℤ) × List Char) :=
  match take4Digits l with
  | none => none
  | some (y1, r1) =>
    match skipWs r1 with
    | [] => none
    | d :: r3 =>
      if d == '-' || d == '–' || d == '—' then
        match take4Digits (skipWs r3) with
        | some (y2, r5) => some ((y1, y2), r5)
        | none => none
      else none

/-- The alternation `(?:à|a|to)` followed by `\s+(\d{4})`, tried in the
regex alternation order. -/
def connThenDigits (r : List Char) : Option (ℤ × List Char) :=
  (match matchCaseless (chars "à") r with
   | some rest => wsPlusDigits4 rest
   | none => none) <|>
  (match matchCaseless (chars "a") r with
   | some rest => wsPlusDigits4 rest
   | none => none) <|>
  (match matchCaseless (chars "to") r with
   | some rest => wsPlusDigits4 rest
   | none => none)

/-- Regex `(\d{4})\s+(?:à|a|to)\s+(\d{4})` (pattern 2 of the date-range
family). -/
def matchRange2 (l : List Char) : Option ((ℤ × ℤ) × List Char) :=
  match take4Digits l with
  | none => none
  | some (y1, r1) =>
    match r1 with
    | [] => none
    | c :: t =>
      if c.isWhitespace then
        match connThenDigits (skipWs t) with
        | some (y2, rest) => some ((y1, y2), rest)
        | none => none
      else none

/-- Regex `(?:[Dd]epuis|[Ss]ince)\s+(\d{4})` under `re.IGNORECASE`. -/
def matchOngoing1 (l : List Char) : Option (ℤ × List Char) :=
  (match matchCaseless (chars "depuis") l with
   | some rest => wsPlusDigits4 rest
   | none => none) <|>
  (match matchCaseless (chars "since") l with
   | some rest => wsPlusDigits4 rest
   | none => none)

/-- The closing words of `aujourd'?hui|present|now|maintenant`
(apostrophe variant first, as the greedy `'?` tries it first). -/
def endWordAfter (r : List Char) : Option (List Char) :=
  matchCaseless (chars "aujourd" ++ [apos] ++ chars "hui") r <|>
  matchCaseless (chars "aujourdhui") r <|>
  matchCaseless (chars "present") r <|>
  matchCaseless (chars "now") r <|>
  matchCaseless (chars "maintenant") r

/-- `\s+` followed by one of the closing words. -/
def wsPlusEndWord : List Char → Option (List Char)
  | [] => none
  | c :: t => if c.isWhitespace then endWordAfter (skipWs t) else none

/-- Regex `(\d{4})\s+(?:à|a|to)\s+(?:aujourd'?hui|present|now|maintenant)`
(pattern 2 of the ongoing family). -/
def matchOngoing2 (l : List Char) : Option (ℤ × List Char) :=
  match take4Digits l with
  | none => none
  | some (y1, r1) =>
    match r1 with
    | [] => none
    | c :: t =>
      if c.isWhitespace then
        let r2 := skipWs t
        ((match matchCaseless (chars "à") r2 with
          | some rest => wsPlusEndWord rest
          | none => none) <|>
         (match matchCaseless (chars "a") r2 with
          | some rest => wsPlusEndWord rest
          | none => none) <|>
         (match matchCaseless (chars "to") r2 with
          | some rest => wsPlusEndWord rest
          | none => none)).map (fun rest => (y1, rest))
      else none

/-- `re.findall` driver for date-range matchers: leftmost,
non-overlapping, advancing one character on failure.  Fueled by the text
length. -/
def scanRanges (m : List Char → Option ((ℤ × ℤ) × List Char)) :
    Nat → List Char → List (ℤ × ℤ)
  | 0, _ => []
  | _, [] => []
  | Nat.succ n, c :: t =>
    match m (c :: t) with
    | some (p, rest) => p :: scanRanges m n rest
    | none => scanRanges m n t

/-- `re.findall` driver for single-year matchers. -/
def scanYears (m : List Char → Option (ℤ × List Char)) :
    Nat → List Char → List ℤ
  | 0, _ => []
  | _, [] => []
  | Nat.succ n, c :: t =>
    match m (c :: t) with
    | some (y, rest) => y :: scanYears m n rest
    | none => scanYears m n t

/-- The closed-range loop of `_extract_experience_from_dates`
(lines 396-407): sanity-check each `(start, end)` pair, skip pairs already
in `found_dates`, otherwise add `end - start` years. -/
def processRanges (cy : ℤ) : List (ℤ × ℤ) → ℤ × List (ℤ × ℤ) → ℤ × List (ℤ × ℤ)
  | [], st => st
  | (s, e) :: rest, (total, found) =>
    if 1950 ≤ s ∧ s ≤ cy ∧ s ≤ e ∧ e ≤ cy + 1 then
      if (s, e) ∈ found then processRanges cy rest (total, found)
      else processRanges cy rest (total + (e - s), found ++ [(s, e)])
    else processRanges cy rest (total, found)

/-- The ongoing-period loop of `_extract_experience_from_dates`
(lines 410-421): sanity-check the start year, skip start years already
present in `found_dates`, otherwise add `current_year - start` years. -/
def processOngoing (cy : ℤ) : List ℤ → ℤ × List (ℤ × ℤ) → ℤ × List (ℤ × ℤ)
  | [], st => st
  | s :: rest, (total, found) =>
    if 1950 ≤ s ∧ s ≤ cy then
      if found.any (fun p => p.1 == s) then processOngoing cy rest (total, found)
      else processOngoing cy rest (total + (cy - s), found ++ [(s, cy)])
    else processOngoing cy rest (total, found)

/-- `_extract_experience_from_dates`, with `datetime.now().year` made an
explicit `currentYear` parameter. -/
def extractExperienceFromDates (currentYear : ℤ) (resumeText : String) : ℤ :=
  let l := chars resumeText
  let m1 := scanRanges matchRange1 l.length l
  let m2 := scanRanges matchRange2 l.length l
  let o1 := scanYears matchOngoing1 l.length l
  let o2 := scanYears matchOngoing2 l.length l
  let st1 := processRanges currentYear (m1 ++ m2) (0, [])
  (processOngoing currentYear (o1 ++ o2) st1).1

/-! ## Smart skill matching (src/scoring/deterministic_scoring_tool.py,
`_smart_skill_match`, lines 98-146) -/

/-- Python regex `\w` word character.  Python matches Unicode word
characters; here ASCII alphanumerics and underscore, with all non-ASCII
characters treated as word characters (the only non-ASCII characters in
the skill phrases of this repository are accented letters). -/
def wordChar (c : Char) : Bool := c.isAlphanum || c == '_' || 127 < c.toNat

/-- Helper for `wordRuns`: accumulate the current word (reversed). -/
def wordRunsAux : List Char → List Char → List (List Char)
  | [], acc => if acc.isEmpty then [] else [acc.reverse]
  | c :: t, acc =>
    if wordChar c then wordRunsAux t (c :: acc)
    else if acc.isEmpty then wordRunsAux t []
    else acc.reverse :: wordRunsAux t []

/-- `re.findall(\b\w+\b, s)`: the maximal runs of word characters. -/
def wordRuns (l : List Char) : List (List Char) := wordRunsAux l []

/-- The stop-word set of `_smart_skill_match` (line 115). -/
def stopWords : List (List Char) :=
  [chars "a", chars "an", chars "the", chars "of", chars "and", chars "or",
   chars "in", chars "on", chars "at", chars "to", chars "for", chars "de",
   chars "des", chars "et", chars "ou", chars "à"]

/-- `re.search(\b([A-Z]+\d*)\b, s)`: first position with a word boundary
before it carrying a nonempty run of ASCII uppercase letters, then a run
of digits, followed by a word boundary.  (Backtracking into a shorter run
never succeeds, since any proper prefix of a run ends before a word
character, so trying the maximal runs at each position is faithful.) -/
def certSearchAux : Bool → List Char → Option (List Char)
  | _, [] => none
  | prevIsWord, c :: t =>
    if !prevIsWord && c.isUpper then
      let ur := (c :: t).takeWhile Char.isUpper
      let rest1 := (c :: t).dropWhile Char.isUpper
      let dr := rest1.takeWhile Char.isDigit
      let rest2 := rest1.dropWhile Char.isDigit
      match rest2 with
      | [] => some (ur ++ dr)
      | d :: _ =>
        if !wordChar d then some (ur ++ dr)
        else certSearchAux (wordChar c) t
    else certSearchAux (wordChar c) t

/-- `re.search(\b([A-Z]+\d*)\b, skill_requirement)` on the original
(uncased) requirement. -/
def certSearch (l : List Char) : Option (List Char) := certSearchAux false l

/-- After matching the code, the regex `\b` succeeds when the next
character is absent or not a word character. -/
def boundaryAfter : List Char → Bool
  | [] => true
  | d :: _ => !wordChar d

/-- Pattern `\b{cert}\b` searched case-insensitively. -/
def certP1 (cert : List Char) : Bool → List Char → Bool
  | _, [] => false
  | prevIsWord, c :: t =>
    (!prevIsWord &&
      (match matchCaseless cert (c :: t) with
       | some r => boundaryAfter r
       | none => false)) ||
    certP1 cert (wordChar c) t

/-- Pattern `,\s*{cert}\b` searched case-insensitively. -/
def certP2 (cert : List Char) : List Char → Bool
  | [] => false
  | c :: t =>
    (c == ',' &&
      (match matchCaseless cert (skipWs t) with
       | some r => boundaryAfter r
       | none => false)) ||
    certP2 cert t

/-- Pattern `\b{cert}\s*,` searched case-insensitively. -/
def certP3 (cert : List Char) : Bool → List Char → Bool
  | _, [] => false
  | prevIsWord, c :: t =>
    (!prevIsWord &&
      (match matchCaseless cert (c :: t) with
       | some r =>
         (match skipWs r with
          | ch :: _ => ch == ','
          | [] => false)
       | none => false)) ||
    certP3 cert (wordChar c) t

/-- Pattern `/\s*{cert}\b` searched case-insensitively. -/
def certP4 (cert : List Char) : List Char → Bool
  | [] => false
  | c :: t =>
    (c == '/' &&
      (match matchCaseless cert (skipWs t) with
       | some r => boundaryAfter r
       | none => false)) ||
    certP4 cert t

/-- The four certification-code patterns of lines 130-138, each searched
with `re.IGNORECASE` against the resume text. -/
def certPatternsFound (cert resume : List Char) : Bool :=
  certP1 cert false resume || certP2 cert resume ||
  certP3 cert false resume || certP4 cert resume

/-- Regex `re.sub([/\-\s]+, "", s)`: drop slashes, hyphens and
whitespace. -/
def acronymClean (l : List Char) : List Char :=
  l.filter (fun c => !(c == '/' || c == '-' || c.isWhitespace))

/-- `_smart_skill_match`, the ordered chain: direct case-insensitive
substring, all-stop-word-filtered-tokens substring, certification-code
patterns (only when the lowered requirement mentions permis/license),
then acronym normalization. -/
def smartSkillMatch (skillRequirement resumeText : String) : Bool :=
  let sl := lowerChars (chars skillRequirement)
  let rl := lowerChars (chars resumeText)
  if subOf sl rl then true
  else
    let skillWords := (wordRuns sl).filter (fun w => !(stopWords.contains w))
    if skillWords.all (fun w => subOf w rl) then true
    else
      let certHit :=
        if subOf (chars "permis") sl || subOf (chars "license") sl then
          match certSearch (chars skillRequirement) with
          | some cert => certPatternsFound cert (chars resumeText)
          | none => false
        else false
      if certHit then true
      else
        let skillClean := acronymClean sl
        let resumeClean := acronymClean rl
        decide (skillClean.length ≤ 10) && subOf skillClean resumeClean

/-! ## Oracle response parsing (src/scoring/semantic_scoring_tool.py and
src/scoring/bonus_scoring_tool.py, `_parse_score_response`, identical in
both files) -/

/-- Decimal value of a digit run. -/
def digitsToNat (l : List Char) : Nat :=
  l.foldl (fun acc c => acc * 10 + digitVal c) 0

/-- The rational value of a decimal with integer digits `ip`, fractional
digits `fp` and a negation flag, assembled over `ℤ` and `mkRat` so that
concrete responses evaluate in the kernel:
`±(ip.fp) = ±(ip*10^|fp| + fp) / 10^|fp|`. -/
def decimalValue (neg : Bool) (ip fp : List Char) : ℚ :=
  let mag : ℤ := (digitsToNat ip * 10 ^ fp.length + digitsToNat fp : ℕ)
  mkRat (if neg then -mag else mag) (10 ^ fp.length)

/-- Python `float(s)` restricted to optional sign, an integer part and an
optional fractional part (exponents, inf/nan and underscore separators
are elided; no claim feeds such text). -/
def pyFloat? (s : List Char) : Option ℚ :=
  let t := pyStrip s
  let signed : Bool × List Char :=
    match t with
    | c :: rest =>
      if c == '-' then (true, rest) else if c == '+' then (false, rest) else (false, t)
    | [] => (false, t)
  let ip := signed.2.takeWhile Char.isDigit
  let r1 := signed.2.dropWhile Char.isDigit
  match r1 with
  | [] => if ip.isEmpty then none else some (decimalValue signed.1 ip [])
  | c :: r2 =>
    if c == '.' then
      let fp := r2.takeWhile Char.isDigit
      let r3 := r2.dropWhile Char.isDigit
      if r3.isEmpty && !(ip.isEmpty && fp.isEmpty) then
        some (decimalValue signed.1 ip fp)
      else none
    else none

/-- `re.findall(\d+\.?\d*, response)` taken at its first match: the first
digit run, optionally followed by a dot and a further digit run, read as
a rational. -/
def firstFloatToken : List Char → Option ℚ
  | [] => none
  | c :: t =>
    if c.isDigit then
      let ip := (c :: t).takeWhile Char.isDigit
      let r1 := (c :: t).dropWhile Char.isDigit
      let fp :=
        match r1 with
        | d :: r2 => if d == '.' then r2.takeWhile Char.isDigit else []
        | [] => []
      some (decimalValue false ip fp)
    else firstFloatToken t

/-- The text a `SCORE:` line is parsed from:
`line.replace("SCORE:", "").strip().split("/")[0].strip()`. -/
def scoreLineText (line : List Char) : List Char :=
  pyStrip ((pyStrip (removeAll (chars "SCORE:") line)).takeWhile (fun c => !(c == '/')))

/-- The text an `EXPLANATION:` line contributes:
`line.replace("EXPLANATION:", "").strip()`. -/
def explLineText (line : List Char) : List Char :=
  pyStrip (removeAll (chars "EXPLANATION:") line)

/-- The line loop of `_parse_score_response`: every `SCORE:`/
`EXPLANATION:` line overwrites the previous value (there is no `break`),
and a `SCORE:` line whose number does not parse aborts the whole `try`
block (modelled as `Except.error` carrying the offending text). -/
def parseLinesAux :
    List (List Char) → Option ℚ → Option (List Char) →
      Except (List Char) (Option ℚ × Option (List Char))
  | [], s, e => .ok (s, e)
  | l :: t, s, e =>
    if (chars "SCORE:").isPrefixOf l then
      match pyFloat? (scoreLineText l) with
      | some v => parseLinesAux t (some v) e
      | none => .error (scoreLineText l)
    else if (chars "EXPLANATION:").isPrefixOf l then
      parseLinesAux t s (some (explLineText l))
    else parseLinesAux t s e

/-- The `ValueError` message of the aborted `try` block (Python wording
minus the quotation marks around the offending text). -/
def floatErrString (bad : List Char) : String :=
  String.mk
    (chars "Error parsing response: could not convert string to float: " ++ bad)

/-- The score before clamping: the last `SCORE:` line value when one
exists, otherwise the first float-looking token of the raw response,
otherwise 0 (lines 289-298). -/
def rawScoreOf (score? : Option ℚ) (response : String) : ℚ :=
  match score? with
  | some v => v
  | none =>
    match firstFloatToken (chars response) with
    | some v => v
    | none => 0

/-- The explanation: the last `EXPLANATION:` line when one exists,
otherwise the stripped raw response (lines 303-306). -/
def explanationOf (expl? : Option (List Char)) (response : String) : String :=
  match expl? with
  | some e => String.mk e
  | none => String.mk (pyStrip (chars response))

/-- `_parse_score_response(response, max_score)`. -/
def parseScoreResponse (response : String) (maxScore : ℚ) : ℚ × String :=
  match parseLinesAux (splitLines (pyStrip (chars response))) none none with
  | .error bad => (0, floatErrString bad)
  | .ok (score?, expl?) =>
    (pyMax 0 (pyMin (rawScoreOf score? response) maxScore),
     explanationOf expl? response)

/-! ## Recommendation and deterministic fallback explanation
(src/scoring/score_explainer.py) -/

/-- `_generate_recommendation` (lines 345-371); the `strengths` and
`weaknesses` arguments of the Python function are unused there and
dropped. -/
def generateRecommendation (totalScore : ℚ) : String :=
  if 85 ≤ totalScore then
    "Strongly recommended - Excellent candidate, proceed to interview immediately"
  else if 75 ≤ totalScore then
    "Recommended - Strong candidate, proceed to interview"
  else if 65 ≤ totalScore then
    "Consider for interview - Good candidate with minor gaps"
  else if 50 ≤ totalScore then
    "Moderate fit - Review carefully before proceeding"
  else
    "Not recommended - Significant gaps in requirements"

/-- The quality tier of `_fallback_explanation` (lines 189-194). -/
def fallbackQuality (total : ℚ) : String :=
  if 80 ≤ total then "Excellent"
  else if 65 ≤ total then "Good"
  else if 50 ≤ total then "Moderate"
  else "Weak"

/-- Python tuple comparison on `(ratio, name)` pairs, as used by
`percentages.sort()`. -/
def pyPairLe (a b : ℚ × String) : Prop :=
  a.1 < b.1 ∨ (a.1 = b.1 ∧ a.2 ≤ b.2)

instance : DecidableRel pyPairLe := fun a b => by
  unfold pyPairLe
  infer_instance

instance : IsTotal (ℚ × String) pyPairLe := by
  constructor
  intro a b
  rcases lt_trichotomy a.1 b.1 with h | h | h
  · exact Or.inl (Or.inl h)
  · rcases le_total a.2 b.2 with h2 | h2
    · exact Or.inl (Or.inr ⟨h, h2⟩)
    · exact Or.inr (Or.inr ⟨h.symm, h2⟩)
  · exact Or.inr (Or.inl h)

instance : IsTrans (ℚ × String) pyPairLe := by
  constructor
  rintro a b c (hab | ⟨hab, hab2⟩) (hbc | ⟨hbc, hbc2⟩)
  · exact Or.inl (hab.trans hbc)
  · exact Or.inl (hbc ▸ hab)
  · exact Or.inl (hab ▸ hbc)
  · exact Or.inr ⟨hab.trans hbc, hab2.trans hbc2⟩

/-- `percentages.sort(); ... reverse=True`: ascending Python tuple sort
followed by reversal, i.e. descending by ratio with ties broken by name.
(The five names are pairwise distinct, so the order is strict and tie
handling inside the sort is not load-bearing.) -/
def sortPairsDesc (ps : List (ℚ × String)) : List (ℚ × String) :=
  (List.insertionSort pyPairLe ps).reverse

/-- The `(score/max, name)` list of `_fallback_explanation`
(lines 197-205): only five of the twelve sub-dimensions participate. -/
def fallbackPercentages (det : DeterministicScore) (sem : SemanticScore)
    (bonus : BonusScore) : List (ℚ × String) :=
  [(det.skillsMatching.score / 15, "skills"),
   (det.experienceYears.score / 10, "experience"),
   (sem.softSkillsMatch.score / 15, "soft skills"),
   (sem.cultureFit.score / 10, "culture fit"),
   (bonus.rareSkillsPremium.score / 5, "rare skills")]

/-- The structured content of `_fallback_explanation`: quality tier,
`percentages[:2]` names as strengths, `percentages[-2:]` names as
weaknesses. -/
structure FallbackParts where
  quality : String
  strengths : List String
  weaknesses : List String
deriving Repr, DecidableEq

/-- `_fallback_explanation`, lines 188-216, as structured parts. -/
def fallbackExplanationParts (total : ℚ) (det : DeterministicScore)
    (sem : SemanticScore) (bonus : BonusScore) : FallbackParts :=
  let sorted := sortPairsDesc (fallbackPercentages det sem bonus)
  { quality := fallbackQuality total,
    strengths := (sorted.take 2).map Prod.snd,
    weaknesses := (sorted.drop (sorted.length - 2)).map Prod.snd }

/-- The rendered fallback sentence (the `{total:.0f}/100` interpolation
is elided). -/
def fallbackExplanationText (total : ℚ) (det : DeterministicScore)
    (sem : SemanticScore) (bonus : BonusScore) : String :=
  let p := fallbackExplanationParts total det sem bonus
  p.quality ++ " candidate. Strong " ++ String.intercalate " and " p.strengths ++
    ". Could improve " ++ String.intercalate " and " p.weaknesses ++ "."

/-! ## Oracle model and the semantic / bonus scoring tools
(src/scoring/semantic_scoring_tool.py, src/scoring/bonus_scoring_tool.py).
The long f-string prompt templates are abstracted into a prompt datatype
identifying the dimension and its text arguments; `_call_claude` prints
and re-raises on failure, so an oracle call is `OPrompt → Except`. -/

/-- One oracle round-trip, identified by dimension and arguments. -/
inductive OPrompt where
  | softSkills (resumeText jobDescription jobTitle : String)
  | cultureFit (resumeText jobDescription : String) (companyCulture : Option String)
  | growthPotential (resumeText jobTitle : String)
  | projectRelevance (resumeText jobDescription : String)
  | industryExperience (resumeText jobDescription : String) (industry : Option String)
  | rareSkills (resumeText jobDescription jobTitle : String)
  | careerTrajectory (resumeText jobTitle : String)
  | overallExplanation (breakdown : ScoreBreakdown) (jobTitle : String)
deriving DecidableEq

/-- The external text oracle: returns response text or raises. -/
def Oracle : Type := OPrompt → Except String String

/-- One dimension of the semantic/bonus tools: call the oracle (failures
propagate, there is no `try` around the call sites at lines 135, 181,
223, 266 of semantic_scoring_tool.py and 140, 202, 251 of
bonus_scoring_tool.py), then parse the response. -/
def scoreDim (oracle : Oracle) (p : OPrompt) (maxScore : ℚ) :
    Except String ScoreDetail :=
  (oracle p).map (fun resp =>
    let pr := parseScoreResponse resp maxScore
    { score := pr.1, maxScore := maxScore, explanation := pr.2 })

/-- `SemanticScoringTool.score_resume_job_match` (lines 40-70). -/
def semanticScoreResumeJobMatch (oracle : Oracle)
    (resumeText jobDescription jobTitle : String)
    (companyCulture : Option String) : Except String SemanticScore := do
  let soft ← scoreDim oracle (.softSkills resumeText jobDescription jobTitle) 15
  let culture ← scoreDim oracle (.cultureFit resumeText jobDescription companyCulture) 10
  let growth ← scoreDim oracle (.growthPotential resumeText jobTitle) 10
  let proj ← scoreDim oracle (.projectRelevance resumeText jobDescription) 5
  pure { softSkillsMatch := soft, cultureFit := culture,
         growthPotential := growth, projectRelevance := proj }

/-- `BonusScoringTool.score_resume_job_match` (lines 41-69). -/
def bonusScoreResumeJobMatch (oracle : Oracle)
    (resumeText jobDescription jobTitle : String)
    (industry : Option String) : Except String BonusScore := do
  let ind ← scoreDim oracle (.industryExperience resumeText jobDescription industry) 10
  let rare ← scoreDim oracle (.rareSkills resumeText jobDescription jobTitle) 5
  let career ← scoreDim oracle (.careerTrajectory resumeText jobTitle) 5
  pure { industryExperience := ind, rareSkillsPremium := rare,
         careerTrajectory := career }

/-! ## Explainer and scoring agent (src/scoring/score_explainer.py,
src/scoring/scoring_agent.py) -/

/-- `DetailedMatch` from src/scoring/models.py. -/
structure DetailedMatch where
  jobTitle : String
  company : String
  matchScore : ℚ
  scoreBreakdown : ScoreBreakdown
  overallExplanation : String
  strengths : List String
  weaknesses : List String
  recommendation : String
  salary : ℤ
  location : String
deriving DecidableEq

/-- `_extract_strengths` (lines 218-279).  Interpolated counts/years from
`metadata` are elided from the strings; conditions and order are
verbatim (the inner `missing > 0` guard of the skills weakness rule
belongs to `_extract_weaknesses`, see there). -/
def extractStrengths (b : ScoreBreakdown) : List String :=
  let det := b.deterministic
  let sem := b.semantic
  let bonus := b.bonus
  let l :=
    (if 12 ≤ det.skillsMatching.score then
      ["Strong technical skills with matched competencies"] else []) ++
    (if 8 ≤ det.experienceYears.score then
      ["Excellent experience level"] else []) ++
    (if 4 ≤ det.educationMatch.score then
      ["Strong educational background"] else []) ++
    (if 4 ≤ det.salaryFit.score then
      ["Salary expectations well-aligned"] else []) ++
    (if 4 ≤ det.locationMatch.score then
      ["Excellent location fit"] else []) ++
    (if 12 ≤ sem.softSkillsMatch.score then
      ["Outstanding soft skills and communication"] else []) ++
    (if 8 ≤ sem.cultureFit.score then
      ["Excellent cultural alignment"] else []) ++
    (if 8 ≤ sem.growthPotential.score then
      ["High growth potential and adaptability"] else []) ++
    (if 4 ≤ sem.projectRelevance.score then
      ["Highly relevant project experience"] else []) ++
    (if 7 ≤ bonus.industryExperience.score then
      ["Strong industry-specific experience"] else []) ++
    (if 4 ≤ bonus.rareSkillsPremium.score then
      ["Rare and highly valuable technical skills"] else []) ++
    (if 4 ≤ bonus.careerTrajectory.score then
      ["Coherent and progressive career path"] else [])
  let l := if 5 < l.length then l.take 5 else l
  if l.isEmpty then ["Meets basic requirements"] else l

/-- `_extract_weaknesses` (lines 281-343), strings minus metadata
interpolations.  The skills rule additionally requires a nonempty
missing-skills list in the code; a skills score below 10 forces
`match_ratio < 2/3 < 1`, hence at least one missing skill, so the guard
is always true there and is elided. -/
def extractWeaknesses (b : ScoreBreakdown) : List String :=
  let det := b.deterministic
  let sem := b.semantic
  let bonus := b.bonus
  let l :=
    (if det.skillsMatching.score < 10 then
      ["Missing key technical skills"] else []) ++
    (if det.experienceYears.score < 5 then
      ["Experience level below requirement"] else []) ++
    (if det.educationMatch.score < 3 then
      ["Education level could be higher"] else []) ++
    (if det.salaryFit.score < 3 then
      ["Salary expectations may not align"] else []) ++
    (if det.locationMatch.score < 3 then
      ["Location not optimal"] else []) ++
    (if sem.softSkillsMatch.score < 10 then
      ["Soft skills need development"] else []) ++
    (if sem.cultureFit.score < 6 then
      ["Cultural fit uncertain"] else []) ++
    (if sem.growthPotential.score < 6 then
      ["Growth potential unclear"] else []) ++
    (if sem.projectRelevance.score < 3 then
      ["Limited relevant project experience"] else []) ++
    (if bonus.industryExperience.score < 5 then
      ["Limited industry-specific experience"] else []) ++
    (if bonus.rareSkillsPremium.score < 2 then
      ["Few rare or specialized skills"] else []) ++
    (if bonus.careerTrajectory.score < 3 then
      ["Career progression unclear"] else [])
  let l := if 4 < l.length then l.take 4 else l
  if l.isEmpty then ["No significant weaknesses identified"] else l

/-- `_generate_overall_explanation` (lines 106-179): the one oracle call
whose failure is caught, degrading to `_fallback_explanation`. -/
def generateOverallExplanation (oracle : Oracle) (b : ScoreBreakdown)
    (jobTitle : String) : String :=
  match oracle (.overallExplanation b jobTitle) with
  | .ok t => String.mk (pyStrip (chars t))
  | .error _ =>
    fallbackExplanationText b.totalScore b.deterministic b.semantic b.bonus

/-- `ScoreExplainer.generate_detailed_match` (lines 46-104). -/
def generateDetailedMatch (oracle : Oracle) (jobTitle company : String)
    (salary : ℤ) (location : String) (det : DeterministicScore)
    (sem : SemanticScore) (bonus : BonusScore) : DetailedMatch :=
  let b : ScoreBreakdown := ⟨det, sem, bonus⟩
  { jobTitle := jobTitle, company := company, matchScore := b.totalScore,
    scoreBreakdown := b,
    overallExplanation := generateOverallExplanation oracle b jobTitle,
    strengths := extractStrengths b,
    weaknesses := extractWeaknesses b,
    recommendation := generateRecommendation b.totalScore,
    salary := salary, location := location }

/-- `ScoringAgent.score_candidate` (lines 51-139).  The deterministic
step never raises — all oracle-assisted sub-steps of
deterministic_scoring_tool.py catch internally (lines 216-234, 524-556,
574-584) — so its result is the `det` argument; the semantic and bonus
steps run in `Except`, exactly as the Python calls sit outside any
`try`. -/
def scoreCandidate (oracle : Oracle) (det : DeterministicScore)
    (resumeText jobTitle company jobDescription jobLocation : String)
    (jobSalary : ℤ) (industry companyCulture : Option String) :
    Except String DetailedMatch := do
  let sem ← semanticScoreResumeJobMatch oracle resumeText jobDescription
    jobTitle companyCulture
  let bonus ← bonusScoreResumeJobMatch oracle resumeText jobDescription
    jobTitle industry
  pure (generateDetailedMatch oracle jobTitle company jobSalary jobLocation
    det sem bonus)

/-! ## Triage pipeline (src/agents/conversational_agent.py,
`search_matching_jobs`, lines 292-348, resume-present branch) -/

/-- Outcome of `search_matching_jobs`: either the no-match message or a
nonempty scored list.  Each retained entry keeps the job and the
advanced-scoring total. -/
inductive SearchResult where
  | noMatch
  | results (entries : List (QJob × ℚ))
deriving DecidableEq

/-- Descending sort by quick score, `quick_scored.sort(key=..., reverse=True)`.
Tie order among equal quick scores is not load-bearing for any claim. -/
def quickPairLe (a b : QJob × ℚ) : Prop := a.2 ≤ b.2

instance : DecidableRel quickPairLe := fun a b => by
  unfold quickPairLe
  infer_instance

/-- The resume-present branch of `search_matching_jobs`: truncate the
pre-filtered set to 20, quick-score, keep scores `≥ 45`, sort descending,
deep-score the top 3, and return the no-match message when nothing
remains.  The advanced scorer `_advanced_score` is abstracted as the
total function `adv` (it catches internally and always returns, lines
454-479). -/
def searchMatchingJobsWithResume (adv : String → QJob → ℚ)
    (resumeText : String) (jobs : List QJob) : SearchResult :=
  let considered := jobs.take 20
  let quickScored :=
    (considered.map (fun j => (j, quickScore resumeText j))).filter
      (fun p => 45 ≤ p.2)
  let sorted := (List.insertionSort quickPairLe quickScored).reverse
  let top := sorted.take 3
  let finalScored := top.map (fun p => (p.1, adv resumeText p.1))
  if finalScored.isEmpty then .noMatch else .results finalScored

/-! ## Helper lemmas -/

/-- `pyMax 0 b` is nonnegative. -/
theorem pyMax_nonneg_left (b : ℚ) : 0 ≤ pyMax 0 b := by
  unfold pyMax
  split_ifs with h
  · exact h
  · exact le_refl 0

/-- The requirement bonus of the quick score is nonnegative. -/
theorem quickReqBonus_nonneg (rl : List Char) (j : QJob) : 0 ≤ quickReqBonus rl j := by
  unfold quickReqBonus
  split
  · exact le_refl 0
  · exact mul_nonneg (div_nonneg (Nat.cast_nonneg _) (Nat.cast_nonneg _)) (by norm_num)

/-- The description bonus of the quick score is nonnegative. -/
theorem quickDescBonus_nonneg (rl : List Char) (j : QJob) : 0 ≤ quickDescBonus rl j := by
  simp only [quickDescBonus, pyMin]
  split
  · split_ifs with h
    · norm_num
    · exact mul_nonneg (Nat.cast_nonneg _) (by norm_num)
  · exact le_refl 0

/-- The quick triage score never drops below its base of 50. -/
theorem quickScore_ge_fifty (r : String) (j : QJob) : (50 : ℚ) ≤ quickScore r j := by
  simp only [quickScore, pyMin]
  have h1 := quickReqBonus_nonneg (lowerChars (chars r)) j
  have h2 := quickDescBonus_nonneg (lowerChars (chars r)) j
  split_ifs with h
  · linarith
  · linarith

/-- The quick triage score is capped at 100. -/
theorem quickScore_le_hundred (r : String) (j : QJob) : quickScore r j ≤ 100 := by
  simp only [quickScore, pyMin]
  split_ifs with h
  · exact le_refl 100
  · linarith

/-- An oracle whose every call fails, for concrete instantiations. -/
def oracleDown : Oracle := fun _ => .error "API connection error"

/-- A deterministic score with canonical maxima and zero scores. -/
def detZero : DeterministicScore :=
  ⟨⟨0, 15, ""⟩, ⟨0, 10, ""⟩, ⟨0, 5, ""⟩, ⟨0, 5, ""⟩, ⟨0, 5, ""⟩⟩

/-- A score breakdown with canonical maxima and zero scores. -/
def bZero : ScoreBreakdown :=
  ⟨detZero,
   ⟨⟨0, 15, ""⟩, ⟨0, 10, ""⟩, ⟨0, 10, ""⟩, ⟨0, 5, ""⟩⟩,
   ⟨⟨0, 10, ""⟩, ⟨0, 5, ""⟩, ⟨0, 5, ""⟩⟩⟩

/-- A trivial advanced scorer, for concrete instantiations of the triage
pipeline. -/
def advZero : String → QJob → ℚ := fun _ _ => 0

/-! ## Claim theorems -/

/-- Claim C1, counterexample: with an oracle whose calls fail, the
semantic scorer, the bonus scorer and `ScoringAgent.score_candidate` all
propagate the failure to their caller instead of substituting a zero
score for the failed dimension — refuting the claim that an oracle
exception is caught at the dimension level and a complete result is
always returned. -/
theorem C1_counterexample :
    semanticScoreResumeJobMatch oracleDown "resume" "desc" "title" none =
      Except.error "API connection error" ∧
    bonusScoreResumeJobMatch oracleDown "resume" "desc" "title" none =
      Except.error "API connection error" ∧
    scoreCandidate oracleDown detZero "resume" "title" "co" "desc" "loc" 0 none none =
      Except.error "API connection error" :=
  ⟨rfl, rfl, rfl⟩

/-- Claim C1, amended: an oracle exception is NOT caught at the dimension
level.  A failing oracle call for the first semantic dimension propagates
out of `SemanticScoringTool.score_resume_job_match` and hence out of
`ScoringAgent.score_candidate`; a failing call for the first bonus
dimension propagates out of `BonusScoringTool.score_resume_job_match`.
Only response parsing substitutes a zero score with an error string. -/
theorem C1_amended : ∀ (oracle : Oracle)
    (err resumeText jobDescription jobTitle company jobLocation : String)
    (companyCulture industry : Option String) (det : DeterministicScore)
    (jobSalary : ℤ),
    (oracle (OPrompt.softSkills resumeText jobDescription jobTitle) = .error err →
      semanticScoreResumeJobMatch oracle resumeText jobDescription jobTitle
        companyCulture = .error err ∧
      scoreCandidate oracle det resumeText jobTitle company jobDescription
        jobLocation jobSalary industry companyCulture = .error err) ∧
    (oracle (OPrompt.industryExperience resumeText jobDescription industry) =
        .error err →
      bonusScoreResumeJobMatch oracle resumeText jobDescription jobTitle
        industry = .error err) := by
  intro oracle err r d t co loc cc ind det sal
  constructor
  · intro h
    have hsem : semanticScoreResumeJobMatch oracle r d t cc = .error err := by
      unfold semanticScoreResumeJobMatch scoreDim
      rw [h]
      rfl
    refine ⟨hsem, ?_⟩
    unfold scoreCandidate
    rw [hsem]
    rfl
  · intro h
    unfold bonusScoreResumeJobMatch scoreDim
    rw [h]
    rfl

/-- Claim C1, witness: the amended theorem applied to the always-failing
oracle at concrete inputs. -/
theorem C1_witness :
    oracleDown (OPrompt.softSkills "resume" "desc" "title") =
      Except.error "API connection error" ∧
    (semanticScoreResumeJobMatch oracleDown "resume" "desc" "title" none =
       Except.error "API connection error" ∧
     scoreCandidate oracleDown detZero "resume" "title" "co" "desc" "loc" 0
       none none = Except.error "API connection error") :=
  ⟨rfl,
   (C1_amended oracleDown "API connection error" "resume" "desc" "title" "co"
     "loc" none none detZero 0).1 rfl⟩

/-- Claim C2, counterexample: with a resume present and an empty
candidate set, no job passes the quick filter (vacuously), and the
pipeline returns the empty no-match result — there is no fallback that
deep-scores a top-N slice instead of returning empty. -/
theorem C2_counterexample :
    ((((([] : List QJob).take 20).map
        (fun j => (j, quickScore "resume" j))).filter
        (fun p => (45 : ℚ) ≤ p.2)).isEmpty = true) ∧
    searchMatchingJobsWithResume advZero "resume" [] = SearchResult.noMatch :=
  ⟨rfl, rfl⟩

/-- Claim C2, amended: the quick filter can never yield zero candidates
from a nonempty considered set, because the quick score is always at
least 50 > 45; so if no considered job passes the filter the considered
set itself is empty, and the pipeline then returns the empty no-match
result — no fallback deep-scoring path exists in the code. -/
theorem C2_amended : ∀ (adv : String → QJob → ℚ) (resumeText : String)
    (jobs : List QJob),
    (((jobs.take 20).map (fun j => (j, quickScore resumeText j))).filter
        (fun p => 45 ≤ p.2) = []) →
    jobs.take 20 = [] ∧
    searchMatchingJobsWithResume adv resumeText jobs = SearchResult.noMatch := by
  intro adv r jobs h
  have htake : jobs.take 20 = [] := by
    cases htk : jobs.take 20 with
    | nil => rfl
    | cons j t =>
      exfalso
      have hmem : (j, quickScore r j) ∈
          ((jobs.take 20).map (fun j => (j, quickScore r j))) := by
        rw [htk]
        exact List.mem_map_of_mem _ (List.mem_cons_self _ _)
      have hfil : (j, quickScore r j) ∈
          (((jobs.take 20).map (fun j => (j, quickScore r j))).filter
            (fun p => decide (45 ≤ p.2))) :=
        List.mem_filter.mpr
          ⟨hmem, decide_eq_true (le_trans (by norm_num) (quickScore_ge_fifty r j))⟩
      rw [h] at hfil
      exact List.not_mem_nil _ hfil
  refine ⟨htake, ?_⟩
  simp [searchMatchingJobsWithResume, htake]

/-- Claim C2, witness: the amended theorem applied at the empty candidate
set. -/
theorem C2_witness :
    (((([] : List QJob).take 20).map
        (fun j => (j, quickScore "resume" j))).filter
        (fun p => (45 : ℚ) ≤ p.2) = []) ∧
    (([] : List QJob).take 20 = [] ∧
     searchMatchingJobsWithResume advZero "resume" [] = SearchResult.noMatch) :=
  ⟨rfl, C2_amended advZero "resume" [] rfl⟩

/-- Claim C3, counterexample: a text with two duplicate mentions of
2015-2024 yields 9, not 18 — the exact duplicate `(start, end)` pair is
skipped by the `found_dates` dedup, refuting the claimed sum of 18. -/
theorem C3_counterexample :
    extractExperienceFromDates 2024 "2015-2024 2015-2024" = 9 ∧
    extractExperienceFromDates 2024 "2015-2024 2015-2024" ≠ 18 :=
  ⟨rfl, by decide⟩

/-- Claim C3, amended: with reference year 2024, `extract_years` on
"2015-2024" returns 9 and on "Depuis 2015" returns 9; a duplicate mention
of the same range is counted once (9, not 18), while distinct overlapping
ranges are summed without merging ("2015-2024 2016-2024" gives 17). -/
theorem C3_amended :
    extractExperienceFromDates 2024 "2015-2024" = 9 ∧
    extractExperienceFromDates 2024 "Depuis 2015" = 9 ∧
    extractExperienceFromDates 2024 "2015-2024 2015-2024" = 9 ∧
    extractExperienceFromDates 2024 "2015-2024 2016-2024" = 17 :=
  ⟨rfl, rfl, rfl, rfl⟩

/-- Claim C4, counterexample: with two `SCORE:` lines the parser keeps
the LAST one (the loop has no `break`), refuting the claim that the
first `SCORE:` line is taken. -/
theorem C4_counterexample :
    parseScoreResponse "SCORE: 3\nSCORE: 7" 10 = (7, "SCORE: 3\nSCORE: 7") ∧
    (parseScoreResponse "SCORE: 3\nSCORE: 7" 10).1 ≠ 3 :=
  ⟨by decide, by decide⟩

/-- Claim C4, amended: the parser takes the LAST `SCORE:` line (strip,
split on `/`, parse float); a `SCORE:` line whose number does not parse
aborts parsing with score 0 and an error-message explanation (no token
salvage); when no `SCORE:` line exists it falls back to the first
float-looking token anywhere in the response, and to 0 if there is none;
the result is clamped to `[0, max]` on every path; and when no
`EXPLANATION:` line exists the STRIPPED raw response is the explanation
(on the non-error path). -/
theorem C4_amended :
    (∀ (response : String) (maxScore : ℚ), 0 ≤ maxScore →
      0 ≤ (parseScoreResponse response maxScore).1 ∧
      (parseScoreResponse response maxScore).1 ≤ maxScore) ∧
    parseScoreResponse "SCORE: 3\nSCORE: 7" 10 = (7, "SCORE: 3\nSCORE: 7") ∧
    parseScoreResponse "Overall 8.5/10 fit" 10 = (mkRat 17 2, "Overall 8.5/10 fit") ∧
    parseScoreResponse "no numbers here" 10 = (0, "no numbers here") ∧
    parseScoreResponse "SCORE: abc" 10 =
      (0, "Error parsing response: could not convert string to float: abc") ∧
    parseScoreResponse "SCORE: 8.5/10\nEXPLANATION: solid" 10 = (mkRat 17 2, "solid") := by
  refine ⟨?_, by decide, by decide, by decide, by decide, by decide⟩
  intro resp m hm
  rcases hp : parseLinesAux (splitLines (pyStrip (chars resp))) none none with bad | ⟨s?, e?⟩
  · simp only [parseScoreResponse, hp]
    exact ⟨le_refl 0, hm⟩
  · simp only [parseScoreResponse, hp]
    rw [pyMax_eq_max, pyMin_eq_min]
    exact ⟨le_max_left 0 _, max_le hm (min_le_right _ _)⟩

/-- Claim C4, witness: the clamp bound of the amended theorem applied at
a concrete response and maximum. -/
theorem C4_witness :
    (0 : ℚ) ≤ 10 ∧
    (0 ≤ (parseScoreResponse "SCORE: 5" 10).1 ∧
     (parseScoreResponse "SCORE: 5" 10).1 ≤ 10) :=
  ⟨by norm_num, C4_amended.1 "SCORE: 5" 10 (by norm_num)⟩

/-- Claim C5: the experience sub-score bands.  For candidate years `c`
and required years `r`: when `c ≥ r` the score is 10 up to 5 years over,
9 up to 10 over, 8 up to 15 over and 7 beyond (never below 7 for
overqualification); when `c < r` it is `max(0, 10 - 2*(r - c))`.  In
particular `(r=5, c=10)` scores 10 and `(r=5, c=25)` scores 7. -/
theorem C5_theorem : ∀ c r : ℤ,
    (r ≤ c →
      scoreExperienceBand c r =
        (if c ≤ r + 5 then (10 : ℚ) else if c ≤ r + 10 then 9
         else if c ≤ r + 15 then 8 else 7) ∧
      (7 : ℚ) ≤ scoreExperienceBand c r) ∧
    (c < r → scoreExperienceBand c r = max 0 (10 - 2 * ((r : ℚ) - (c : ℚ)))) ∧
    scoreExperienceBand 10 5 = 10 ∧ scoreExperienceBand 25 5 = 7 := by
  intro c r
  refine ⟨?_, ?_, by decide, by decide⟩
  · intro hge
    unfold scoreExperienceBand
    rw [if_pos hge]
    refine ⟨rfl, ?_⟩
    split_ifs <;> norm_num
  · intro hlt
    unfold scoreExperienceBand
    rw [if_neg (not_le.mpr hlt), pyMax_eq_max]

/-- Claim C5, witness: the banding theorem applied at `(r=5, c=10)`. -/
theorem C5_witness : (5 : ℤ) ≤ 10 ∧ (7 : ℚ) ≤ scoreExperienceBand 10 5 :=
  ⟨by decide, ((C5_theorem 10 5).1 (by decide)).2⟩

/-- Claim C6: for every `ScoreBreakdown`, `total_score` is the sum of the
three group totals, and under the per-dimension bounds the pipeline
establishes (each detail in `[0, canonical max]`) the total lies in
`[0, 100]`. -/
theorem C6_theorem : ∀ b : ScoreBreakdown,
    b.totalScore = b.deterministic.total + b.semantic.total + b.bonus.total ∧
    (pipelineBounds b → 0 ≤ b.totalScore ∧ b.totalScore ≤ 100) := by
  intro b
  refine ⟨rfl, ?_⟩
  intro h
  obtain ⟨h1, h2, h3, h4, h5, h6, h7, h8, h9, h10, h11, h12, h13, h14, h15, h16,
    h17, h18, h19, h20, h21, h22, h23, h24⟩ := h
  unfold ScoreBreakdown.totalScore DeterministicScore.total SemanticScore.total
    BonusScore.total
  constructor <;> linarith

/-- Claim C6, witness: the invariant applied to the all-zero breakdown. -/
theorem C6_witness :
    pipelineBounds bZero ∧ (0 ≤ bZero.totalScore ∧ bZero.totalScore ≤ 100) :=
  ⟨by decide, (C6_theorem bZero).2 (by decide)⟩

/-- Claim C7: the skill matcher accepts "Permis C" against
"Permis B, C, CE" and "FIMO" against "FIMO / FCO". -/
theorem C7_theorem :
    smartSkillMatch "Permis C" "Permis B, C, CE" = true ∧
    smartSkillMatch "FIMO" "FIMO / FCO" = true :=
  ⟨rfl, rfl⟩

/-- Claim C8, counterexample: totals 79 and 80 receive the same
recommendation (both in the 75-85 band) but different fallback quality
tiers ("Good" vs "Excellent") — so the fallback tier is not derived from
the recommendation bands ≥85/≥75/≥65/≥50; its top boundary is 80. -/
theorem C8_counterexample :
    generateRecommendation 79 = generateRecommendation 80 ∧
    fallbackQuality 79 ≠ fallbackQuality 80 ∧
    fallbackQuality 80 = "Excellent" ∧ fallbackQuality 79 = "Good" := by
  refine ⟨?_, ?_, ?_, ?_⟩ <;> decide

/-- Claim C8, amended: the deterministic fallback explanation derives its
quality tier from its own bands (≥80 Excellent / ≥65 Good / ≥50 Moderate
/ else Weak — not the recommendation bands), and names as strengths the
first two entries of the `(score/max, name)` list sorted descending, and
as areas to improve the last two — the two highest and two lowest ratios
among the five dimensions considered (skills, experience, soft skills,
culture fit, rare skills). -/
theorem C8_amended : ∀ (total : ℚ) (det : DeterministicScore)
    (sem : SemanticScore) (bonus : BonusScore),
    (fallbackExplanationParts total det sem bonus).quality = fallbackQuality total ∧
    (fallbackQuality total = "Excellent" ↔ 80 ≤ total) ∧
    (fallbackQuality total = "Good" ↔ 65 ≤ total ∧ total < 80) ∧
    (fallbackQuality total = "Moderate" ↔ 50 ≤ total ∧ total < 65) ∧
    (fallbackQuality total = "Weak" ↔ total < 50) ∧
    ∃ ds : List (ℚ × String),
      ds.Perm (fallbackPercentages det sem bonus) ∧
      List.Pairwise (fun a b => b.1 ≤ a.1) ds ∧
      (fallbackExplanationParts total det sem bonus).strengths =
        (ds.take 2).map Prod.snd ∧
      (fallbackExplanationParts total det sem bonus).weaknesses =
        (ds.drop 3).map Prod.snd := by
  intro total det sem bonus
  have hperm : (sortPairsDesc (fallbackPercentages det sem bonus)).Perm
      (fallbackPercentages det sem bonus) :=
    (List.reverse_perm _).trans (List.perm_insertionSort _ _)
  have hlen : (sortPairsDesc (fallbackPercentages det sem bonus)).length = 5 :=
    hperm.length_eq
  refine ⟨rfl, ?_, ?_, ?_, ?_, ?_⟩
  · unfold fallbackQuality
    split_ifs with h1 h2 h3
    · exact iff_of_true rfl h1
    · exact iff_of_false (by decide) h1
    · exact iff_of_false (by decide) h1
    · exact iff_of_false (by decide) h1
  · unfold fallbackQuality
    split_ifs with h1 h2 h3
    · exact iff_of_false (by decide) (fun hc => absurd h1 (not_le.mpr hc.2))
    · exact iff_of_true rfl ⟨h2, not_le.mp h1⟩
    · exact iff_of_false (by decide) (fun hc => absurd hc.1 h2)
    · exact iff_of_false (by decide) (fun hc => absurd hc.1 h2)
  · unfold fallbackQuality
    split_ifs with h1 h2 h3
    · exact iff_of_false (by decide)
        (fun hc => absurd h1 (not_le.mpr (lt_of_lt_of_le hc.2 (by norm_num))))
    · exact iff_of_false (by decide) (fun hc => absurd h2 (not_le.mpr hc.2))
    · exact iff_of_true rfl ⟨h3, not_le.mp h2⟩
    · exact iff_of_false (by decide) (fun hc => absurd hc.1 h3)
  · unfold fallbackQuality
    split_ifs with h1 h2 h3
    · exact iff_of_false (by decide)
        (fun hc => absurd h1 (not_le.mpr (lt_of_lt_of_le hc (by norm_num))))
    · exact iff_of_false (by decide)
        (fun hc => absurd h2 (not_le.mpr (lt_of_lt_of_le hc (by norm_num))))
    · exact iff_of_false (by decide) (fun hc => absurd h3 (not_le.mpr hc))
    · exact iff_of_true rfl (not_le.mp h3)
  · refine ⟨sortPairsDesc (fallbackPercentages det sem bonus), hperm, ?_, rfl, ?_⟩
    · have hs : List.Pairwise pyPairLe
          (List.insertionSort pyPairLe (fallbackPercentages det sem bonus)) :=
        List.sorted_insertionSort pyPairLe _
      unfold sortPairsDesc
      rw [List.pairwise_reverse]
      exact hs.imp (fun hab => by
        rcases hab with h | ⟨h, _⟩
        · exact le_of_lt h
        · exact le_of_eq h)
    · show (fallbackExplanationParts total det sem bonus).weaknesses = _
      simp only [fallbackExplanationParts]
      rw [hlen]

/-- Claim C8, witness: the amended theorem applied at total 82 and the
all-zero scores. -/
theorem C8_witness :
    (fallbackExplanationParts 82 bZero.deterministic bZero.semantic
      bZero.bonus).quality = fallbackQuality 82 :=
  (C8_amended 82 bZero.deterministic bZero.semantic bZero.bonus).1

/-- Claim C9: the quick triage score always lies in `[50, 100]` — it
starts from a base of 50 and adds only nonnegative bonuses before the cap
at 100 — so every considered job meets the quick-filter threshold of 45
and the filter never excludes a job. -/
theorem C9_theorem : ∀ (resumeText : String) (job : QJob) (jobs : List QJob),
    ((50 : ℚ) ≤ quickScore resumeText job ∧ quickScore resumeText job ≤ 100) ∧
    (((jobs.take 20).map (fun j => (j, quickScore resumeText j))).filter
        (fun p => 45 ≤ p.2) =
      (jobs.take 20).map (fun j => (j, quickScore resumeText j))) := by
  intro r job jobs
  constructor
  · exact ⟨quickScore_ge_fifty r job, quickScore_le_hundred r job⟩
  · apply List.filter_eq_self.mpr
    intro p hp
    obtain ⟨j, hj, rfl⟩ := List.mem_map.mp hp
    exact decide_eq_true (le_trans (by norm_num) (quickScore_ge_fifty r j))

/-- Claim C10: a candidate salary expectation of 0 is treated exactly
like an absent expectation — score 5.0 with the "assumed acceptable"
explanation — so the percentage-difference division is only reached with
a nonzero expectation. -/
theorem C10_theorem : ∀ s : ℤ,
    scoreSalaryFit s (some 0) = scoreSalaryFit s none ∧
    (scoreSalaryFit s (some 0)).score = 5 ∧
    (scoreSalaryFit s (some 0)).explanation =
      "Salaire non spécifié, assumé acceptable" := by
  intro s
  exact ⟨rfl, rfl, rfl⟩
